import Mathlib

/-!
Shallow embedding of the create-or-upload composite operations, the
ingestion status-line scanner, and the /chat handler of the
Data_Sources_MCP repository (Confluence / Jira utilities,
`confluence_mcp.py`, `sharepoint_mcp.py`, `api_server.py`).

External collaborators (the Confluence / Jira HTTP clients and the local
file system) are modelled as explicit environments of pure functions; each
embedded operation returns its result dictionary together with the ordered
trace of client (network) calls it issued.  Python dictionaries whose key
sets vary between branches are modelled as structures with `Option`-valued
fields (`none` = key absent).  Timestamps, attachment comments and web-URL
joining are not modelled: no claim depends on them.
-/

namespace DSMCP

/-! ### Python string primitives, modelled on `List Char` -/

/-- `startsWithL h p` is Python `h.startswith(p)` on character lists. -/
def startsWithL : List Char → List Char → Bool
  | _, [] => true
  | [], _ :: _ => false
  | c :: cs, p :: ps => c = p && startsWithL cs ps

/-- `hasSub pat hay` is Python `pat in hay` (substring containment). -/
def hasSub (pat : List Char) : List Char → Bool
  | [] => pat.isEmpty
  | c :: t => startsWithL (c :: t) pat || hasSub pat t

/-- Python `pat in s` on strings. -/
def strContains (s pat : String) : Bool := hasSub pat.data s.data

/-- Python `c.lower()` character-wise. -/
def lowerL (cs : List Char) : List Char := cs.map Char.toLower

/-- Python `pat in s.lower()` (the pattern is already lower case). -/
def strContainsLow (s pat : String) : Bool := hasSub pat.data (lowerL s.data)

/-- Python `s.split(sep)` for a one-character separator: no collapsing of
empty fields, `"".split(sep) == [""]`. -/
def pySplitChar (sep : Char) : List Char → List (List Char)
  | [] => [[]]
  | c :: t =>
    if c = sep then [] :: pySplitChar sep t
    else match pySplitChar sep t with
      | [] => [[c]]
      | g :: gs => (c :: g) :: gs

/-- Python `s.isdigit()` restricted to ASCII digits (empty string is false). -/
def pyIsDigitL (cs : List Char) : Bool := !cs.isEmpty && cs.all Char.isDigit

/-- Python `s.strip()`. -/
def pyStrip (cs : List Char) : List Char :=
  ((cs.dropWhile Char.isWhitespace).reverse.dropWhile Char.isWhitespace).reverse

/-- `summary.strip().lower()`, the normal form `JiraUtils.create_issue`
compares summaries under. -/
def normSummary (s : String) : List Char := lowerL (pyStrip s.data)

/-- The final path component, `pathlib.Path(p).name`. -/
def pathName (cs : List Char) : List Char := (pySplitChar '/' cs).getLastD []

/-- Index of the last `'.'` in a name, Python `name.rfind('.')`. -/
def rfindDot (cs : List Char) : Option Nat :=
  (cs.reverse.findIdx? (· = '.')).map (fun j => cs.length - 1 - j)

/-- `pathlib.Path(name).suffix`: the extension from the last dot, empty when
the dot is absent, leading, or trailing. -/
def pySuffix (cs : List Char) : List Char :=
  match rfindDot cs with
  | some i => if 0 < i ∧ i < cs.length - 1 then cs.drop i else []
  | none => []

/-- `Path(p).suffix.lower() == '.pdf'`, the PDF gate used by every
upload-and-ingest tool. -/
def isPdfPath (p : String) : Bool :=
  lowerL (pySuffix (pathName p.data)) = ".pdf".data

/-! ### Lemmas about substring containment -/

theorem startsWithL_append (h p b : List Char) (hw : startsWithL h p = true) :
    startsWithL (h ++ b) p = true := by
  induction p generalizing h with
  | nil => simp [startsWithL]
  | cons q qs ih =>
    cases h with
    | nil => simp [startsWithL] at hw
    | cons c cs =>
      simp only [startsWithL, Bool.and_eq_true] at hw
      simp only [List.cons_append, startsWithL, Bool.and_eq_true]
      exact ⟨hw.1, ih cs hw.2⟩

theorem hasSub_append_left (pat a h : List Char) (hw : hasSub pat h = true) :
    hasSub pat (a ++ h) = true := by
  induction a with
  | nil => simpa using hw
  | cons c t ih =>
    simp only [List.cons_append, hasSub, Bool.or_eq_true]
    exact Or.inr ih

theorem hasSub_append_right (pat h b : List Char) (hw : hasSub pat h = true) :
    hasSub pat (h ++ b) = true := by
  induction h with
  | nil =>
    simp only [hasSub, List.isEmpty_iff] at hw
    subst hw
    cases b with
    | nil => simp [hasSub]
    | cons c t => simp [hasSub, startsWithL]
  | cons c t ih =>
    simp only [hasSub, Bool.or_eq_true] at hw
    simp only [List.cons_append, hasSub, Bool.or_eq_true]
    rcases hw with hw | hw
    · exact Or.inl (startsWithL_append _ _ _ hw)
    · exact Or.inr (ih hw)

/-- A pattern found in the middle segment is found in the whole string. -/
theorem strContains_middle (a mid b pat : String)
    (hw : strContains mid pat = true) :
    strContains (a ++ (mid ++ b)) pat = true := by
  simp only [strContains, String.data_append]
  exact hasSub_append_left _ _ _ (hasSub_append_right _ _ _ hw)

/-! ### Client-call trace vocabulary

Every modelled operation returns the ordered list of client (network) calls
it issued.  The vocabulary also contains the clients' delete operations,
which none of the embedded flows ever issue (claim C7). -/

inductive Call where
  | getContentByTitle (space title : String)
  | getContent (id : String)
  | getSpace (key : String)
  | createPage (space title : String)
  | uploadAttachment (contentId path : String)
  | deleteContent (id : String)
  | getIssue (key : String)
  | getProject (key : String)
  | searchIssues (project text : String)
  | createIssue (project summary : String)
  | uploadIssueAttachment (key path : String)
  | deleteIssue (key : String)
deriving DecidableEq, Repr

/-- Is the call one of the clients' create operations? -/
def Call.isCreate : Call → Bool
  | .createPage _ _ => true
  | .createIssue _ _ => true
  | _ => false

/-- Is the call one of the clients' delete operations? -/
def Call.isDelete : Call → Bool
  | .deleteContent _ => true
  | .deleteIssue _ => true
  | _ => false

/-- Does the call transfer an attachment to a target other than `tgt`?
(`true` means the call is harmless for "all uploads go to `tgt`".) -/
def Call.uploadsOnlyTo (tgt : String) : Call → Bool
  | .uploadAttachment cid _ => cid == tgt
  | .uploadIssueAttachment k _ => k == tgt
  | _ => true

/-! ### External collaborator state -/

/-- A Confluence page as returned by `get_content_by_title`. -/
structure PageInfo where
  id : String
  title : String
  webui : String
deriving DecidableEq, Repr

/-- A Confluence content item as returned by `get_content`. -/
structure ContentInfo where
  title : String
  spaceKey : String
deriving DecidableEq, Repr

/-- An attachment record as returned by an upload response. -/
structure AttachInfo where
  id : String
  title : String
  fileSize : Nat
deriving DecidableEq, Repr

/-- A Jira issue as returned by `get_issue` / `search_issues` /
`create_issue`. -/
structure IssueInfo where
  key : String
  id : String
  summary : String
deriving DecidableEq, Repr

/-- The Confluence client plus local file system, as pure functions.
`Except.error msg` models the client raising an exception whose text is
`msg`; an `Option` result of `none` models a raise whose text the caller
discards, or (for uploads) a falsy / result-less response. -/
structure ConfluenceEnv where
  fileSize : String → Option Nat
  getContentByTitle : String → String → Except String (Option PageInfo)
  getContent : String → Option ContentInfo
  getSpace : String → Bool
  createPage : String → String → Except String PageInfo
  uploadAttachment : String → String → Except String (Option AttachInfo)

/-- The Jira client plus local file system, as pure functions.
`searchIssues project text` yields the (at most five) issues the JQL text
search returns. -/
structure JiraEnv where
  fileSize : String → Option Nat
  getIssue : String → Option IssueInfo
  uploadAttachment : String → String → Except String (Option AttachInfo)
  getProject : String → Bool
  searchIssues : String → String → List IssueInfo
  createIssue : String → String → Except String IssueInfo

/-! ### Result dictionaries -/

/-- The result dictionary of `upload_file_to_content` /
`upload_file_to_issue` (and of `upload_file_to_page_by_title`, which adds
the page keys).  `none` = key absent from the Python dict. -/
structure URes where
  success : Bool
  error : Option String := none
  content_id : Option String := none
  issue_key : Option String := none
  file_size : Option Nat := none
  content_title : Option String := none
  issue_title : Option String := none
  space_key : Option String := none
  page_title : Option String := none
  attachment_id : Option String := none
  filename : Option String := none
  size_bytes : Option Nat := none
  file_path : Option String := none
deriving DecidableEq, Repr

/-- The result dictionary of the create and composite operations.  When a
composite returns a (mutated) upload dictionary, its keys are carried over
by `liftU`. -/
structure Res where
  success : Bool
  error : Option String := none
  page_created : Option Bool := none
  page_already_existed : Option Bool := none
  issue_created : Option Bool := none
  issue_already_existed : Option Bool := none
  page_id : Option String := none
  issue_id : Option String := none
  title : Option String := none
  web_url : Option String := none
  existing_page : Option PageInfo := none
  existing_issue_key : Option String := none
  upload_result : Option URes := none
  content_length : Option Nat := none
  content_id : Option String := none
  issue_key : Option String := none
  file_size : Option Nat := none
  content_title : Option String := none
  issue_title : Option String := none
  space_key : Option String := none
  page_title : Option String := none
  attachment_id : Option String := none
  filename : Option String := none
  size_bytes : Option Nat := none
  file_path : Option String := none
  summary : Option String := none
  project_key : Option String := none
deriving DecidableEq, Repr

/-- An upload dictionary returned verbatim (plus later key insertions) as a
composite result: every key of the Python dict is carried over. -/
def liftU (u : URes) : Res :=
  { success := u.success, error := u.error, content_id := u.content_id,
    issue_key := u.issue_key, file_size := u.file_size,
    content_title := u.content_title, issue_title := u.issue_title,
    space_key := u.space_key, page_title := u.page_title,
    attachment_id := u.attachment_id, filename := u.filename,
    size_bytes := u.size_bytes, file_path := u.file_path }

/-! ### Confluence operations (`src/confluence_mcp/utils.py`) -/

/-- `ConfluenceUtils.upload_file_to_content`: existence check, 25 MiB size
ceiling, content validation, transfer. -/
def upload_file_to_content (env : ConfluenceEnv) (content_id file_path : String) :
    URes × List Call :=
  match env.fileSize file_path with
  | none =>
    ({ success := false, error := some ("File not found: " ++ file_path),
       content_id := some content_id }, [])
  | some sz =>
    if sz > 25 * 1024 * 1024 then
      ({ success := false,
         error := some ("File too large: " ++ toString sz ++ " bytes (max: " ++
           toString (25 * 1024 * 1024) ++ " bytes)"),
         content_id := some content_id, file_size := some sz }, [])
    else
      match env.getContent content_id with
      | none =>
        ({ success := false, error := some ("Content not found: " ++ content_id),
           content_id := some content_id }, [Call.getContent content_id])
      | some content =>
        match env.uploadAttachment content_id file_path with
        | .error msg =>
          ({ success := false, error := some ("Upload failed: " ++ msg),
             content_id := some content_id, file_path := some file_path },
           [Call.getContent content_id, Call.uploadAttachment content_id file_path])
        | .ok none =>
          ({ success := false, error := some "Upload failed - no response from server",
             content_id := some content_id },
           [Call.getContent content_id, Call.uploadAttachment content_id file_path])
        | .ok (some att) =>
          ({ success := true, content_id := some content_id,
             content_title := some content.title, space_key := some content.spaceKey,
             attachment_id := some att.id, filename := some att.title,
             size_bytes := some att.fileSize, file_path := some file_path },
           [Call.getContent content_id, Call.uploadAttachment content_id file_path])

/-- `ConfluenceUtils.upload_file_to_page_by_title`: find the page by title,
then upload to its id; the page keys are stamped onto the result. -/
def upload_file_to_page_by_title (env : ConfluenceEnv)
    (space_key page_title file_path : String) : URes × List Call :=
  match env.getContentByTitle space_key page_title with
  | .error msg =>
    ({ success := false, error := some ("Upload failed: " ++ msg),
       space_key := some space_key, page_title := some page_title,
       file_path := some file_path }, [Call.getContentByTitle space_key page_title])
  | .ok none =>
    ({ success := false,
       error := some ("Page not found: \"" ++ page_title ++ "\" in space \"" ++
         space_key ++ "\""),
       space_key := some space_key, page_title := some page_title },
     [Call.getContentByTitle space_key page_title])
  | .ok (some page) =>
    let r := upload_file_to_content env page.id file_path
    ({ r.1 with page_title := some page_title, space_key := some space_key },
     Call.getContentByTitle space_key page_title :: r.2)

/-- `ConfluenceUtils.create_page`: refuse when a page with the title already
exists, validate the space, then create. -/
def create_page (env : ConfluenceEnv) (space_key title content : String) :
    Res × List Call :=
  match env.getContentByTitle space_key title with
  | .error msg =>
    ({ success := false, error := some ("Failed to create page: " ++ msg),
       space_key := some space_key, title := some title },
     [Call.getContentByTitle space_key title])
  | .ok (some p) =>
    ({ success := false,
       error := some ("Page with title \"" ++ title ++
         ("\" already exists in space \"" ++ (space_key ++ "\""))),
       existing_page := some p }, [Call.getContentByTitle space_key title])
  | .ok none =>
    if env.getSpace space_key then
      match env.createPage space_key title with
      | .error msg =>
        ({ success := false, error := some ("Failed to create page: " ++ msg),
           space_key := some space_key, title := some title },
         [Call.getContentByTitle space_key title, Call.getSpace space_key,
          Call.createPage space_key title])
      | .ok p =>
        ({ success := true, page_created := some true, page_id := some p.id,
           title := some p.title, space_key := some space_key,
           web_url := some p.webui, content_length := some content.length },
         [Call.getContentByTitle space_key title, Call.getSpace space_key,
          Call.createPage space_key title])
    else
      ({ success := false,
         error := some ("Space \"" ++ space_key ++ "\" not found or not accessible") },
       [Call.getContentByTitle space_key title, Call.getSpace space_key])

/-- `ConfluenceUtils.create_page_and_upload_file`: create, fall back to the
existing page on a title conflict, then upload; never rolls a creation
back. -/
def create_page_and_upload_file (env : ConfluenceEnv)
    (space_key page_title file_path page_content : String) : Res × List Call :=
  let cr := create_page env space_key page_title page_content
  if cr.1.success then
    match cr.1.page_id with
    | some page_id =>
      let u := upload_file_to_content env page_id file_path
      if u.1.success then
        ({ success := true, page_created := some true, page_id := some page_id,
           page_title := some page_title, space_key := some space_key,
           web_url := cr.1.web_url, upload_result := some u.1,
           summary := some ("Created page \"" ++ page_title ++ "\" and uploaded " ++
             String.mk (pathName file_path.data)) }, cr.2 ++ u.2)
      else
        ({ success := false, page_created := some true, page_id := some page_id,
           page_title := some page_title,
           error := some ("Page created but upload failed: " ++
             (u.1.error.getD "Unknown error")),
           upload_result := some u.1 }, cr.2 ++ u.2)
    | none =>
      -- unreachable: a successful `create_page` always carries `page_id`
      ({ success := false,
         error := some "Failed to create page and upload file: KeyError" }, cr.2)
  else
    if strContains (cr.1.error.getD "") "already exists" then
      match cr.1.existing_page with
      | some p =>
        if p.id ≠ "" then
          let u := upload_file_to_content env p.id file_path
          ({ (liftU u.1) with
              page_created := some false,
              page_already_existed := some true }, cr.2 ++ u.2)
        else (cr.1, cr.2)
      | none => (cr.1, cr.2)
    else (cr.1, cr.2)

/-- `ConfluenceUtils.upload_file_to_page_or_create`: try the existing page
first; only on a "not found" upload error create the page and upload. -/
def upload_file_to_page_or_create (env : ConfluenceEnv)
    (space_key page_title file_path page_content : String) : Res × List Call :=
  let u := upload_file_to_page_by_title env space_key page_title file_path
  if !u.1.success && strContainsLow (u.1.error.getD "") "not found" then
    let r := create_page_and_upload_file env space_key page_title file_path page_content
    (r.1, u.2 ++ r.2)
  else
    ({ (liftU u.1) with page_created := some false }, u.2)

/-! ### Jira operations (`src/jira_mcp/utils.py`) -/

/-- `JiraUtils.upload_file_to_issue`: existence check, 10 MiB size ceiling,
issue validation, transfer. -/
def upload_file_to_issue (env : JiraEnv) (issue_key file_path : String) :
    URes × List Call :=
  match env.fileSize file_path with
  | none =>
    ({ success := false, error := some ("File not found: " ++ file_path),
       issue_key := some issue_key }, [])
  | some sz =>
    if sz > 10 * 1024 * 1024 then
      ({ success := false,
         error := some ("File too large: " ++ toString sz ++ " bytes (max: " ++
           toString (10 * 1024 * 1024) ++ " bytes)"),
         issue_key := some issue_key, file_size := some sz }, [])
    else
      match env.getIssue issue_key with
      | none =>
        ({ success := false, error := some ("Issue not found: " ++ issue_key),
           issue_key := some issue_key }, [Call.getIssue issue_key])
      | some issue =>
        match env.uploadAttachment issue_key file_path with
        | .error msg =>
          ({ success := false, error := some ("Upload failed: " ++ msg),
             issue_key := some issue_key, file_path := some file_path },
           [Call.getIssue issue_key, Call.uploadIssueAttachment issue_key file_path])
        | .ok none =>
          ({ success := false, error := some "Upload failed - no response from server",
             issue_key := some issue_key },
           [Call.getIssue issue_key, Call.uploadIssueAttachment issue_key file_path])
        | .ok (some att) =>
          ({ success := true, issue_key := some issue_key,
             issue_title := some issue.summary, attachment_id := some att.id,
             filename := some att.title, size_bytes := some att.fileSize,
             file_path := some file_path },
           [Call.getIssue issue_key, Call.uploadIssueAttachment issue_key file_path])

/-- `JiraUtils.create_issue`: validate the project, search for an issue with
the same (stripped, lower-cased) summary, refuse on a match, else create.
Issue type / priority / assignee only decorate the result and are not
modelled. -/
def create_issue (env : JiraEnv) (project_key summary : String) :
    Res × List Call :=
  if env.getProject project_key then
    match (env.searchIssues project_key summary).find?
        (fun i => normSummary i.summary = normSummary summary) with
    | some i =>
      ({ success := false,
         error := some ("Issue with summary \"" ++ summary ++ "\" already exists"),
         existing_issue_key := some i.key },
       [Call.getProject project_key, Call.searchIssues project_key summary])
    | none =>
      match env.createIssue project_key summary with
      | .error msg =>
        ({ success := false, error := some ("Failed to create issue: " ++ msg),
           project_key := some project_key, summary := some summary },
         [Call.getProject project_key, Call.searchIssues project_key summary,
          Call.createIssue project_key summary])
      | .ok i =>
        ({ success := true, issue_created := some true, issue_key := some i.key,
           issue_id := some i.id, summary := some summary,
           project_key := some project_key },
         [Call.getProject project_key, Call.searchIssues project_key summary,
          Call.createIssue project_key summary])
  else
    ({ success := false,
       error := some ("Project \"" ++ project_key ++ "\" not found or not accessible") },
     [Call.getProject project_key])

/-- `JiraUtils.create_issue_and_upload_file`: create, fall back to the
existing issue on a summary conflict, then upload; never rolls a creation
back. -/
def create_issue_and_upload_file (env : JiraEnv)
    (project_key summary file_path : String) : Res × List Call :=
  let cr := create_issue env project_key summary
  if cr.1.success then
    match cr.1.issue_key with
    | some issue_key =>
      let u := upload_file_to_issue env issue_key file_path
      if u.1.success then
        ({ success := true, issue_created := some true, issue_key := some issue_key,
           summary := some summary, project_key := some project_key,
           upload_result := some u.1 }, cr.2 ++ u.2)
      else
        ({ success := false, issue_created := some true, issue_key := some issue_key,
           summary := some summary,
           error := some ("Issue created but upload failed: " ++
             (u.1.error.getD "Unknown error")),
           upload_result := some u.1 }, cr.2 ++ u.2)
    | none =>
      -- unreachable: a successful `create_issue` always carries `issue_key`
      ({ success := false,
         error := some "Failed to create issue and upload file: KeyError" }, cr.2)
  else
    if strContains (cr.1.error.getD "") "already exists" then
      match cr.1.existing_issue_key with
      | some k =>
        if k ≠ "" then
          let u := upload_file_to_issue env k file_path
          ({ (liftU u.1) with
              issue_created := some false,
              issue_already_existed := some true }, cr.2 ++ u.2)
        else (cr.1, cr.2)
      | none => (cr.1, cr.2)
    else (cr.1, cr.2)

/-- The issue-key shape test of `upload_file_to_issue_or_create`:
`'-' in x and len(x.split('-')) == 2 and x.split('-')[1].isdigit()`. -/
def pyKeyShape (s : String) : Bool :=
  s.data.contains '-' &&
    (match pySplitChar '-' s.data with
     | [_, num] => pyIsDigitL num
     | _ => false)

/-- `JiraUtils.upload_file_to_issue_or_create`: a key-shaped argument is
first tried as an issue key; a successful upload is flagged, a failure not
mentioning "not found" is returned as is, and everything else is treated as
a summary for `create_issue_and_upload_file`. -/
def upload_file_to_issue_or_create (env : JiraEnv)
    (project_key issue_key_or_summary file_path : String) : Res × List Call :=
  if pyKeyShape issue_key_or_summary then
    let u := upload_file_to_issue env issue_key_or_summary file_path
    if u.1.success then
      ({ (liftU u.1) with issue_created := some false }, u.2)
    else if !strContainsLow (u.1.error.getD "") "not found" then
      (liftU u.1, u.2)
    else
      let r := create_issue_and_upload_file env project_key issue_key_or_summary file_path
      (r.1, u.2 ++ r.2)
  else
    create_issue_and_upload_file env project_key issue_key_or_summary file_path

/-! ### Ingestion status-line scanning

`_process_single_file_for_ingestion` (confluence_mcp.py) and the ingestion
loop of `upload_and_ingest` (sharepoint_mcp.py) fold the streamed status
lines into a success flag; a scan returns the flag together with the number
of lines consumed. -/

/-- A line that the Confluence scanner counts as a success marker. -/
def confMarker (m : String) : Bool :=
  (strContains m "Added" && strContains m "chunks") || strContains m "already ingested"

/-- A line at which the Confluence scanner aborts: it mentions "Error" and
matched no success marker first. -/
def confAbort (m : String) : Bool := !confMarker m && strContains m "Error"

/-- The Confluence scan loop (flag accumulator; `break` on an abort line). -/
def confScan : List String → Bool → Bool × Nat
  | [], flag => (flag, 0)
  | m :: rest, flag =>
    if strContains m "Added" && strContains m "chunks" then
      let r := confScan rest true; (r.1, r.2 + 1)
    else if strContains m "already ingested" then
      let r := confScan rest true; (r.1, r.2 + 1)
    else if strContains m "Error" then (false, 1)
    else
      let r := confScan rest flag; (r.1, r.2 + 1)

/-- The Confluence scan as run by the code (`processing_successful = False`
initially). -/
def confScanRun (lines : List String) : Bool × Nat := confScan lines false

/-- A line that the SharePoint scanner counts as a success marker (the
"already ingested" test is applied to the lower-cased line). -/
def spMarker (m : String) : Bool :=
  (strContains m "Added" && strContains m "chunks") || strContainsLow m "already ingested"

/-- A line at which the SharePoint scanner aborts: it mentions "Error" or
"Failed" and matched no success marker first. -/
def spAbort (m : String) : Bool :=
  !spMarker m && (strContains m "Error" || strContains m "Failed")

/-- The SharePoint scan loop. -/
def spScan : List String → Bool → Bool × Nat
  | [], flag => (flag, 0)
  | m :: rest, flag =>
    if strContains m "Added" && strContains m "chunks" then
      let r := spScan rest true; (r.1, r.2 + 1)
    else if strContainsLow m "already ingested" then
      let r := spScan rest true; (r.1, r.2 + 1)
    else if strContains m "Error" || strContains m "Failed" then (false, 1)
    else
      let r := spScan rest flag; (r.1, r.2 + 1)

/-- The SharePoint scan as run by the code. -/
def spScanRun (lines : List String) : Bool × Nat := spScan lines false

/-! ### Single-file ingestion (`_process_single_file_for_ingestion`) -/

/-- The ingestion result dictionary. -/
structure IngestRes where
  processed : Nat
  skipped : Option Nat := none
  error : Option String := none
  status : Option String := none
  message : Option String := none
deriving DecidableEq, Repr

/-- `_process_single_file_for_ingestion`: existence check, PDF gate, scan of
the streamed status lines, then cleanup on success.  The second component
records whether `unlink` was called on the local file. -/
def process_single_file_for_ingestion (file_path : String) (fileExists : Bool)
    (stream : List String) (cleanup_after_ingest : Bool) : IngestRes × Bool :=
  if !fileExists then
    ({ processed := 0, error := some "File not found" }, false)
  else if !isPdfPath file_path then
    ({ processed := 0, skipped := some 1,
       message := some "Not a PDF file - only PDFs are supported for ingestion" }, false)
  else if (confScanRun stream).1 then
    ({ processed := 1, status := some "processed" }, cleanup_after_ingest)
  else
    ({ processed := 0, error := some "PDF processing failed" }, false)

/-! ### The upload-and-ingest tool (`upload_and_ingest_file_to_content`) -/

/-- The tool's top-level result: the ingestion sub-result is the Python
value of the `ingestion_result` key (`none` = Python `None`). -/
structure ToolRes where
  success : Bool
  upload_result : Option URes := none
  ingestion_result : Option IngestRes := none
  error : Option String := none
deriving DecidableEq, Repr

/-- `upload_and_ingest_file_to_content`: upload, then ingest PDFs only; a
failed upload short-circuits with `ingestion_result = None`.  (The sibling
tools `upload_and_ingest_file_to_page_by_title` and
`upload_and_ingest_file_to_page_or_create` have the identical step-2
structure.)  The second component records whether `unlink` was called. -/
def upload_and_ingest_file_to_content (env : ConfluenceEnv)
    (content_id file_path : String) (stream : List String)
    (cleanup_after_ingest : Bool) : ToolRes × Bool :=
  let u := upload_file_to_content env content_id file_path
  if !u.1.success then
    ({ success := false, upload_result := some u.1, ingestion_result := none,
       error := some ("Upload failed: " ++ (u.1.error.getD "Unknown error")) }, false)
  else if isPdfPath file_path then
    let ir := process_single_file_for_ingestion file_path
      (env.fileSize file_path).isSome stream cleanup_after_ingest
    ({ success := true, upload_result := some u.1, ingestion_result := some ir.1 },
     ir.2)
  else
    ({ success := true, upload_result := some u.1,
       ingestion_result := some
         { processed := 0
           skipped := some 1
           message := some "File skipped for ingestion - only PDFs are supported" } },
     false)

/-! ### The /chat handler (`src/api_server.py`) -/

/-- A LangChain message as inspected by `chat_with_agent`. -/
structure Msg where
  type : String
  name : Option String := none
  content : String
deriving DecidableEq, Repr

/-- The handler's final-answer filter: an AI message, not named
'supervisor', whose content starts with neither transfer notice. -/
def substantive (m : Msg) : Bool :=
  m.type == "ai" && m.name != some "supervisor" &&
    !startsWithL m.content.data "Transferring back".data &&
    !startsWithL m.content.data "Successfully transferred".data

/-- The reversed-scan of `chat_with_agent`: the first substantive message
from the end. -/
def pickFinalMsg (msgs : List Msg) : Option Msg := msgs.reverse.find? substantive

/-- The content returned by the handler: the last substantive message, else
the last message; `none` when the list is empty (Python raises IndexError
there). -/
def finalAnswer (msgs : List Msg) : Option String :=
  match pickFinalMsg msgs with
  | some m => some m.content
  | none => msgs.getLast?.map Msg.content

/-- The HTTP outcome of one /chat request. -/
inductive ChatOutcome where
  | http (status : Nat) (detail : String)
  | ok (response : String)
deriving DecidableEq, Repr

/-- `chat_with_agent`: 503 before the supervisor is touched when agents are
uninitialized; 500 when processing raises; otherwise the extracted final
answer.  `run` is the supervisor invocation (`Except.error` = it raised);
the second component records whether the supervisor was invoked. -/
def chat_with_agent (agents_initialized : Bool) (supervisorSome : Bool)
    (run : Except String (List Msg)) : ChatOutcome × Bool :=
  if !agents_initialized || !supervisorSome then
    (.http 503 "Agents not initialized. Please check server status.", false)
  else
    match run with
    | .error e => (.http 500 ("Error processing request: " ++ e), true)
    | .ok msgs =>
      match finalAnswer msgs with
      | some c => (.ok c, true)
      | none => (.http 500 "Error processing request: list index out of range", true)

/-! ### Further substring lemmas -/

/-- A pattern found in the left part is found in the concatenation. -/
theorem strContains_left (mid b pat : String) (hw : strContains mid pat = true) :
    strContains (mid ++ b) pat = true := by
  simp only [strContains, String.data_append]
  exact hasSub_append_right _ _ _ hw

/-- A pattern found in the right part is found in the concatenation. -/
theorem strContains_right (a mid : String) (pat : String)
    (hw : strContains mid pat = true) :
    strContains (a ++ mid) pat = true := by
  simp only [strContains, String.data_append]
  exact hasSub_append_left _ _ _ hw

/-! ### Trace lemmas: the elementary uploads only touch their own target -/

/-- Every client call issued by `upload_file_to_content` reads or uploads to
the given content id; none is a create or a delete. -/
theorem upload_file_to_content_trace (env : ConfluenceEnv) (cid path : String) :
    ((upload_file_to_content env cid path).2).all
      (fun c => c.uploadsOnlyTo cid && !c.isCreate && !c.isDelete) = true := by
  unfold upload_file_to_content
  (repeat' split) <;> simp [Call.uploadsOnlyTo, Call.isCreate, Call.isDelete]

/-- Every client call issued by `upload_file_to_issue` reads or uploads to
the given issue key; none is a create or a delete. -/
theorem upload_file_to_issue_trace (env : JiraEnv) (k path : String) :
    ((upload_file_to_issue env k path).2).all
      (fun c => c.uploadsOnlyTo k && !c.isCreate && !c.isDelete) = true := by
  unfold upload_file_to_issue
  (repeat' split) <;> simp [Call.uploadsOnlyTo, Call.isCreate, Call.isDelete]

/-! ### Sample environments used by the concrete witnesses -/

/-- An existing Confluence page. -/
def pgW : PageInfo := { id := "101", title := "Home", webui := "/x" }

/-- Confluence collaborator: space `SP` with page `Home` (id 101), a small
file at `/tmp/doc.pdf`, uploads succeed. -/
def cEnvW : ConfluenceEnv :=
  { fileSize := fun p => if p = "/tmp/doc.pdf" then some 100
      else if p = "/tmp/doc.txt" then some 5
      else if p = "/tmp/big.pdf" then some (26 * 1024 * 1024) else none
    getContentByTitle := fun sp t =>
      if sp = "SP" && t = "Home" then .ok (some pgW) else .ok none
    getContent := fun i =>
      if i = "101" then some { title := "Home", spaceKey := "SP" } else none
    getSpace := fun _ => true
    createPage := fun _ t => .ok { id := "202", title := t, webui := "/y" }
    uploadAttachment := fun _ _ =>
      .ok (some { id := "a1", title := "doc.pdf", fileSize := 100 }) }

/-- An existing Jira issue. -/
def issW : IssueInfo := { key := "AB-7", id := "1", summary := "fix login" }

/-- Jira collaborator: project `AB` with issue `AB-7`, a small file at
`/tmp/doc.pdf`, but the attachment endpoint answers with a falsy (empty)
response, so every transfer fails with "no response from server". -/
def jEnvW : JiraEnv :=
  { fileSize := fun p => if p = "/tmp/doc.pdf" then some 100
      else if p = "/tmp/big.pdf" then some (11 * 1024 * 1024) else none
    getIssue := fun k => if k = "AB-7" then some issW else none
    uploadAttachment := fun _ _ => .ok none
    getProject := fun _ => true
    searchIssues := fun _ _ => []
    createIssue := fun p _ => .ok { key := p ++ "-9", id := "9", summary := "s" } }

/-- Claim C2: an oversize file (> 25 MiB for Confluence, > 10 MiB for Jira)
fails the upload at the local size check, with a "File too large" error and
an empty client-call trace (no target validation, no transfer). -/
theorem C2_oversize_fails_locally :
    (∀ (env : ConfluenceEnv) (cid path : String) (sz : Nat),
      env.fileSize path = some sz → sz > 25 * 1024 * 1024 →
      (upload_file_to_content env cid path).1.success = false ∧
      strContains ((upload_file_to_content env cid path).1.error.getD "")
        "File too large" = true ∧
      (upload_file_to_content env cid path).2 = []) ∧
    (∀ (env : JiraEnv) (k path : String) (sz : Nat),
      env.fileSize path = some sz → sz > 10 * 1024 * 1024 →
      (upload_file_to_issue env k path).1.success = false ∧
      strContains ((upload_file_to_issue env k path).1.error.getD "")
        "File too large" = true ∧
      (upload_file_to_issue env k path).2 = []) := by
  constructor
  · intro env cid path sz hfs hsz
    unfold upload_file_to_content
    simp only [hfs]
    rw [if_pos hsz]
    refine ⟨rfl, ?_, rfl⟩
    exact strContains_left _ _ _ (strContains_left _ _ _ (strContains_left _ _ _
      (strContains_left _ _ _ (by decide))))
  · intro env k path sz hfs hsz
    unfold upload_file_to_issue
    simp only [hfs]
    rw [if_pos hsz]
    refine ⟨rfl, ?_, rfl⟩
    exact strContains_left _ _ _ (strContains_left _ _ _ (strContains_left _ _ _
      (strContains_left _ _ _ (by decide))))

/-- Claim C2, witness: the 26 MiB file is rejected locally by both systems
with an empty trace. -/
theorem C2_oversize_fails_locally_witness :
    (upload_file_to_content cEnvW "101" "/tmp/big.pdf").1.success = false ∧
    (upload_file_to_content cEnvW "101" "/tmp/big.pdf").2 = [] ∧
    (upload_file_to_issue jEnvW "AB-7" "/tmp/big.pdf").1.success = false ∧
    (upload_file_to_issue jEnvW "AB-7" "/tmp/big.pdf").2 = [] := by
  have h1 := C2_oversize_fails_locally.1 cEnvW "101" "/tmp/big.pdf"
    (26 * 1024 * 1024) (by decide) (by decide)
  have h2 := C2_oversize_fails_locally.2 jEnvW "AB-7" "/tmp/big.pdf"
    (11 * 1024 * 1024) (by decide) (by decide)
  exact ⟨h1.1, h1.2.2, h2.1, h2.2.2⟩

/-- Claim C6: in the single-file ingestion, `unlink` is called exactly when
`cleanup_after_ingest` is true and the ingestion was marked successful
(`processed = 1`); on failure, and whenever cleanup is off, the file is
kept. -/
theorem C6_cleanup_iff_success_and_requested (file_path : String)
    (fileExists : Bool) (stream : List String) (cleanup : Bool) :
    (process_single_file_for_ingestion file_path fileExists stream cleanup).2 = true ↔
      (cleanup = true ∧
       (process_single_file_for_ingestion file_path fileExists stream cleanup).1.processed = 1) := by
  unfold process_single_file_for_ingestion
  by_cases h1 : fileExists = true
  · by_cases h2 : isPdfPath file_path = true
    · by_cases h3 : (confScanRun stream).1 = true
      · simp [h1, h2, h3]
      · simp [h1, h2, h3]
    · simp [h1, h2]
  · simp [h1]

/-- Claim C9: an uninitialized supervisor yields HTTP 503 and the
supervisor is never invoked; a raising supervisor invocation yields
HTTP 500. -/
theorem C9_availability_codes :
    (∀ (supSome : Bool) (run : Except String (List Msg)),
      chat_with_agent false supSome run =
        (.http 503 "Agents not initialized. Please check server status.", false)) ∧
    (∀ (init : Bool) (run : Except String (List Msg)),
      chat_with_agent init false run =
        (.http 503 "Agents not initialized. Please check server status.", false)) ∧
    (∀ e : String,
      chat_with_agent true true (.error e) =
        (.http 500 ("Error processing request: " ++ e), true)) := by
  refine ⟨fun supSome run => rfl, fun init run => ?_, fun e => rfl⟩
  cases init <;> rfl

/-! ### Characterization of the ingestion scan loops -/

theorem confScan_no_abort (l : List String) (b : Bool)
    (h : ∀ m ∈ l, confAbort m = false) :
    confScan l b = ((b || l.any confMarker), l.length) := by
  induction l generalizing b with
  | nil => simp [confScan]
  | cons m rest ih =>
    have hm : confAbort m = false := h m (List.mem_cons_self m rest)
    have hr : ∀ x ∈ rest, confAbort x = false :=
      fun x hx => h x (List.mem_cons_of_mem m hx)
    by_cases h1 : (strContains m "Added" && strContains m "chunks") = true
    · simp [confScan, h1, ih true hr, confMarker]
    · by_cases h2 : strContains m "already ingested" = true
      · simp [confScan, h1, h2, ih true hr, confMarker]
      · have hmk : confMarker m = false := by
          simp [confMarker, h1, h2]
        have h3 : strContains m "Error" = false := by
          by_contra hc
          rw [Bool.not_eq_false] at hc
          simp [confAbort, hmk, hc] at hm
        simp [confScan, h1, h2, h3, ih b hr, confMarker]

theorem confScan_abort (pre : List String) (bad : String) (rest : List String)
    (b : Bool) (hbad : confAbort bad = true)
    (hpre : ∀ m ∈ pre, confAbort m = false) :
    confScan (pre ++ bad :: rest) b = (false, pre.length + 1) := by
  induction pre generalizing b with
  | nil =>
    have hmk : confMarker bad = false := by
      rcases Bool.and_eq_true _ _ |>.mp hbad with ⟨hnm, _⟩
      simpa using hnm
    have herr : strContains bad "Error" = true :=
      (Bool.and_eq_true _ _ |>.mp hbad).2
    have h12 := Bool.or_eq_false_iff.mp
      (show ((strContains bad "Added" && strContains bad "chunks") ||
        strContains bad "already ingested") = false from hmk)
    have h1 : (strContains bad "Added" && strContains bad "chunks") = false := h12.1
    have h2 : strContains bad "already ingested" = false := h12.2
    simp [confScan, h1, h2, herr]
  | cons m pre ih =>
    have hm : confAbort m = false := hpre m (List.mem_cons_self m pre)
    have hr : ∀ x ∈ pre, confAbort x = false :=
      fun x hx => hpre x (List.mem_cons_of_mem m hx)
    by_cases h1 : (strContains m "Added" && strContains m "chunks") = true
    · simp [confScan, h1, ih true hr, Nat.add_comm]
    · by_cases h2 : strContains m "already ingested" = true
      · simp [confScan, h1, h2, ih true hr, Nat.add_comm]
      · have hmk : confMarker m = false := by
          simp [confMarker, h1, h2]
        have h3 : strContains m "Error" = false := by
          by_contra hc
          rw [Bool.not_eq_false] at hc
          simp [confAbort, hmk, hc] at hm
        simp [confScan, h1, h2, h3, ih b hr, Nat.add_comm]

theorem spScan_no_abort (l : List String) (b : Bool)
    (h : ∀ m ∈ l, spAbort m = false) :
    spScan l b = ((b || l.any spMarker), l.length) := by
  induction l generalizing b with
  | nil => simp [spScan]
  | cons m rest ih =>
    have hm : spAbort m = false := h m (List.mem_cons_self m rest)
    have hr : ∀ x ∈ rest, spAbort x = false :=
      fun x hx => h x (List.mem_cons_of_mem m hx)
    by_cases h1 : (strContains m "Added" && strContains m "chunks") = true
    · simp [spScan, h1, ih true hr, spMarker]
    · by_cases h2 : strContainsLow m "already ingested" = true
      · simp [spScan, h1, h2, ih true hr, spMarker]
      · have hmk : spMarker m = false := by
          simp [spMarker, h1, h2]
        have h3 : (strContains m "Error" || strContains m "Failed") = false := by
          by_contra hc
          rw [Bool.not_eq_false] at hc
          simp [spAbort, hmk, hc] at hm
        simp [spScan, h1, h2, h3, ih b hr, spMarker]

theorem spScan_abort (pre : List String) (bad : String) (rest : List String)
    (b : Bool) (hbad : spAbort bad = true)
    (hpre : ∀ m ∈ pre, spAbort m = false) :
    spScan (pre ++ bad :: rest) b = (false, pre.length + 1) := by
  induction pre generalizing b with
  | nil =>
    have hmk : spMarker bad = false := by
      rcases Bool.and_eq_true _ _ |>.mp hbad with ⟨hnm, _⟩
      simpa using hnm
    have herr : (strContains bad "Error" || strContains bad "Failed") = true :=
      (Bool.and_eq_true _ _ |>.mp hbad).2
    have h12 := Bool.or_eq_false_iff.mp
      (show ((strContains bad "Added" && strContains bad "chunks") ||
        strContainsLow bad "already ingested") = false from hmk)
    have h1 : (strContains bad "Added" && strContains bad "chunks") = false := h12.1
    have h2 : strContainsLow bad "already ingested" = false := h12.2
    simp [spScan, h1, h2, herr]
  | cons m pre ih =>
    have hm : spAbort m = false := hpre m (List.mem_cons_self m pre)
    have hr : ∀ x ∈ pre, spAbort x = false :=
      fun x hx => hpre x (List.mem_cons_of_mem m hx)
    by_cases h1 : (strContains m "Added" && strContains m "chunks") = true
    · simp [spScan, h1, ih true hr, Nat.add_comm]
    · by_cases h2 : strContainsLow m "already ingested" = true
      · simp [spScan, h1, h2, ih true hr, Nat.add_comm]
      · have hmk : spMarker m = false := by
          simp [spMarker, h1, h2]
        have h3 : (strContains m "Error" || strContains m "Failed") = false := by
          by_contra hc
          rw [Bool.not_eq_false] at hc
          simp [spAbort, hmk, hc] at hm
        simp [spScan, h1, h2, h3, ih b hr, Nat.add_comm]

/-- Claim C5, counterexample: the claim's success markers are the literal
(case-sensitive) `"Added"+"chunks"` / `"already ingested"` tests and its
only abort word is `"Error"`; but the SharePoint scan loop lower-cases the
line before the "already ingested" test.  On the single streamed line
`"PDF Already Ingested"` no claimed success marker matches and no line
contains `"Error"`, so the claim predicts a failed ingestion — yet the
SharePoint scan marks it successful. -/
theorem C5_claim_counterexample :
    spScanRun ["PDF Already Ingested"] = (true, 1) ∧
    (∀ m ∈ ["PDF Already Ingested"], confAbort m = false) ∧
    ¬ (∃ m ∈ ["PDF Already Ingested"], confMarker m = true) := by
  refine ⟨by decide, by decide, ?_⟩
  decide

/-- Claim C5 as amended: for the Confluence scan loop the claim holds as
stated — with no aborting line (a line containing `"Error"` that matched no
success marker first) the scan consumes every line and reports success iff
some line matched `"Added"+"chunks"` or `"already ingested"`; the first
aborting line stops the scan at that line and forces failure even after an
earlier success marker.  The SharePoint variant satisfies the same shape
but matches `"already ingested"` against the lower-cased line and also
aborts on `"Failed"`. -/
theorem C5_scan_markers :
    (∀ l : List String, (∀ m ∈ l, confAbort m = false) →
      confScanRun l = (l.any confMarker, l.length)) ∧
    (∀ (pre : List String) (bad : String) (rest : List String),
      confAbort bad = true → (∀ m ∈ pre, confAbort m = false) →
      confScanRun (pre ++ bad :: rest) = (false, pre.length + 1)) ∧
    (∀ l : List String, (∀ m ∈ l, spAbort m = false) →
      spScanRun l = (l.any spMarker, l.length)) ∧
    (∀ (pre : List String) (bad : String) (rest : List String),
      spAbort bad = true → (∀ m ∈ pre, spAbort m = false) →
      spScanRun (pre ++ bad :: rest) = (false, pre.length + 1)) := by
  refine ⟨fun l h => ?_, fun pre bad rest h1 h2 => ?_, fun l h => ?_,
    fun pre bad rest h1 h2 => ?_⟩
  · simpa using confScan_no_abort l false h
  · simpa using confScan_abort pre bad rest false h1 h2
  · simpa using spScan_no_abort l false h
  · simpa using spScan_abort pre bad rest false h1 h2

/-- Claim C5, witness: a success-marker line followed by an abort line —
both scanners stop at the abort line and mark the ingestion failed despite
the earlier marker. -/
theorem C5_scan_markers_witness :
    confScanRun ["Added 12 chunks", "Error: index write failed"] = (false, 2) ∧
    spScanRun ["Added 12 chunks", "Failed to index"] = (false, 2) := by
  constructor
  · have h := C5_scan_markers.2.1 ["Added 12 chunks"] "Error: index write failed" []
      (by decide) (by decide)
    simpa using h
  · have h := C5_scan_markers.2.2.2 ["Added 12 chunks"] "Failed to index" []
      (by decide) (by decide)
    simpa using h

/-- Claim C4, counterexample: a non-PDF file whose upload fails (here the
file does not exist locally) does not produce a skipped ingestion result —
the tool short-circuits with `ingestion_result = None`, against the claim's
"regardless of whether the upload itself succeeded or failed". -/
theorem C4_claim_counterexample :
    isPdfPath "/tmp/none.txt" = false ∧
    (upload_and_ingest_file_to_content cEnvW "101" "/tmp/none.txt" [] true).1.success
      = false ∧
    (upload_and_ingest_file_to_content cEnvW "101" "/tmp/none.txt" [] true).1.ingestion_result
      = none := by
  refine ⟨by decide, by decide, by decide⟩

/-- Claim C4 as amended: for a file whose extension is not `.pdf`
(case-insensitive), a successful upload yields
`ingestion_result = {processed := 0, skipped := 1}`, while a failed upload
short-circuits with `ingestion_result = None`; the local file is never
deleted in either case. -/
theorem C4_non_pdf_skipped (env : ConfluenceEnv) (content_id file_path : String)
    (stream : List String) (cleanup : Bool)
    (hpdf : isPdfPath file_path = false) :
    ((upload_and_ingest_file_to_content env content_id file_path stream cleanup).1.success = true →
      (upload_and_ingest_file_to_content env content_id file_path stream cleanup).1.ingestion_result =
        some { processed := 0
               skipped := some 1
               message := some "File skipped for ingestion - only PDFs are supported" }) ∧
    ((upload_and_ingest_file_to_content env content_id file_path stream cleanup).1.success = false →
      (upload_and_ingest_file_to_content env content_id file_path stream cleanup).1.ingestion_result =
        none) ∧
    (upload_and_ingest_file_to_content env content_id file_path stream cleanup).2 = false := by
  unfold upload_and_ingest_file_to_content
  by_cases hu : (upload_file_to_content env content_id file_path).1.success = true
  · simp only [hu, hpdf, Bool.not_true, Bool.false_eq_true, if_false]
    simp
  · rw [Bool.not_eq_true] at hu
    simp only [hu, Bool.not_false, if_true]
    simp

/-- Claim C4, witness: an existing `.txt` file uploads successfully and is
reported as skipped by the ingestion step. -/
theorem C4_non_pdf_skipped_witness :
    (upload_and_ingest_file_to_content cEnvW "101" "/tmp/doc.txt" [] true).1.success
      = true ∧
    (upload_and_ingest_file_to_content cEnvW "101" "/tmp/doc.txt" [] true).1.ingestion_result
      = some { processed := 0
               skipped := some 1
               message := some "File skipped for ingestion - only PDFs are supported" } := by
  have h := C4_non_pdf_skipped cEnvW "101" "/tmp/doc.txt" [] true (by decide)
  exact ⟨by decide, h.1 (by decide)⟩

/-! ### The /chat final-answer extraction (claim C8) -/

theorem find?_eq_head?_filter (p : Msg → Bool) (l : List Msg) :
    l.find? p = (l.filter p).head? := by
  induction l with
  | nil => rfl
  | cons m t ih =>
    by_cases h : p m = true
    · rw [List.find?_cons_of_pos _ h, List.filter_cons_of_pos h]
      rfl
    · rw [List.find?_cons_of_neg _ h, List.filter_cons_of_neg h, ih]

/-- Claim C8: the /chat handler's answer is the content of the last
substantive message — AI-typed, not named 'supervisor', content starting
with neither "Transferring back" nor "Successfully transferred" — and the
content of the last message overall when no message is substantive. -/
theorem C8_final_answer (l : List Msg) (h : l ≠ []) :
    finalAnswer l =
      some (((l.filter substantive).getLast?.getD (l.getLast h)).content) := by
  unfold finalAnswer pickFinalMsg
  rw [find?_eq_head?_filter, List.filter_reverse, List.head?_reverse]
  cases e : (l.filter substantive).getLast? with
  | some m => simp [e]
  | none =>
    simp only [e, Option.getD_none]
    rw [List.getLast?_eq_getLast l h]
    rfl

/-- Claim C8, witness: the handoff acknowledgement and supervisor messages
at the tail are skipped and the specialist's answer is returned; with no
substantive message the last message's content is returned. -/
theorem C8_final_answer_witness :
    finalAnswer
      [{ type := "human", content := "hi" },
       { type := "ai", name := some "jira", content := "Created issue AB-7" },
       { type := "ai", name := some "jira", content := "Transferring back to supervisor" },
       { type := "ai", name := some "supervisor", content := "done" }] =
      some "Created issue AB-7" ∧
    finalAnswer
      [{ type := "human", content := "hi" },
       { type := "ai", name := some "supervisor", content := "routing" }] =
      some "routing" := by
  constructor
  · have h := C8_final_answer
      [{ type := "human", content := "hi" },
       { type := "ai", name := some "jira", content := "Created issue AB-7" },
       { type := "ai", name := some "jira", content := "Transferring back to supervisor" },
       { type := "ai", name := some "supervisor", content := "done" }]
      (by decide)
    rw [h]
    decide
  · have h := C8_final_answer
      [{ type := "human", content := "hi" },
       { type := "ai", name := some "supervisor", content := "routing" }]
      (by decide)
    rw [h]
    decide

/-! ### The key-shape test of `upload_file_to_issue_or_create` (claim C10) -/

/-- Splitting on a separator that does not occur returns the whole list as
the single field. -/
theorem pySplitChar_no_sep (sep : Char) (cs : List Char) (h : sep ∉ cs) :
    pySplitChar sep cs = [cs] := by
  induction cs with
  | nil => rfl
  | cons c t ih =>
    have hc : ¬ c = sep := fun e => h (e ▸ List.mem_cons_self c t)
    have ht : sep ∉ t := fun e => h (List.mem_cons_of_mem c e)
    simp only [pySplitChar, if_neg hc, ih ht]

/-- Claim C10: the argument is treated as an existing issue key exactly when
it splits on `'-'` into two fields with a nonempty all-digit second field;
any other argument goes straight to the create-issue-and-upload path; and
even a key-shaped argument whose upload fails with a "not found" error
falls through to the create path (after the upload attempt). -/
theorem C10_key_shape_routing :
    (∀ s : String, pyKeyShape s = true ↔
      ∃ p n, pySplitChar '-' s.data = [p, n] ∧ n ≠ [] ∧ n.all Char.isDigit = true) ∧
    (∀ (env : JiraEnv) (proj s path : String), pyKeyShape s = false →
      upload_file_to_issue_or_create env proj s path =
        create_issue_and_upload_file env proj s path) ∧
    (∀ (env : JiraEnv) (proj k path : String), pyKeyShape k = true →
      (upload_file_to_issue env k path).1.success = false →
      strContainsLow ((upload_file_to_issue env k path).1.error.getD "")
        "not found" = true →
      upload_file_to_issue_or_create env proj k path =
        ((create_issue_and_upload_file env proj k path).1,
         (upload_file_to_issue env k path).2 ++
           (create_issue_and_upload_file env proj k path).2)) := by
  refine ⟨fun s => ⟨fun h => ?_, fun h => ?_⟩, fun env proj s path h => ?_,
    fun env proj k path hk hf hnf => ?_⟩
  · rcases Bool.and_eq_true _ _ |>.mp h with ⟨-, hm⟩
    cases e : pySplitChar '-' s.data with
    | nil => rw [e] at hm; simp at hm
    | cons a l =>
      cases l with
      | nil => rw [e] at hm; simp at hm
      | cons n l2 =>
        cases l2 with
        | nil =>
          rw [e] at hm
          rcases Bool.and_eq_true _ _ |>.mp hm with ⟨hne, hdig⟩
          exact ⟨a, n, rfl, by simpa using hne, hdig⟩
        | cons x l3 => rw [e] at hm; simp at hm
  · rcases h with ⟨p, n, e, hne, hdig⟩
    have hmem : '-' ∈ s.data := by
      by_contra hnm
      rw [pySplitChar_no_sep '-' s.data hnm] at e
      simp at e
    unfold pyKeyShape
    rw [e]
    simp [pyIsDigitL, hne, hdig, hmem]
  · unfold upload_file_to_issue_or_create
    simp [h]
  · unfold upload_file_to_issue_or_create
    simp only [hk, hf, hnf]
    rfl

/-- Claim C10, witness: `AB-7` is key-shaped, `A-B-1` and plain summaries
are not; a non-key argument routes to the create path, and a key-shaped
argument whose issue lookup fails with "not found" falls through to the
create path after the upload attempt. -/
theorem C10_key_shape_routing_witness :
    (∃ p n, pySplitChar '-' "AB-7".data = [p, n] ∧ n ≠ [] ∧
      n.all Char.isDigit = true) ∧
    pyKeyShape "A-B-1" = false ∧
    upload_file_to_issue_or_create jEnvW "AB" "fix the login page" "/tmp/doc.pdf" =
      create_issue_and_upload_file jEnvW "AB" "fix the login page" "/tmp/doc.pdf" ∧
    upload_file_to_issue_or_create jEnvW "AB" "AB-9" "/tmp/doc.pdf" =
      ((create_issue_and_upload_file jEnvW "AB" "AB-9" "/tmp/doc.pdf").1,
       (upload_file_to_issue jEnvW "AB-9" "/tmp/doc.pdf").2 ++
         (create_issue_and_upload_file jEnvW "AB" "AB-9" "/tmp/doc.pdf").2) := by
  refine ⟨(C10_key_shape_routing.1 "AB-7").mp (by decide), by decide, ?_, ?_⟩
  · exact C10_key_shape_routing.2.1 jEnvW "AB" "fix the login page" "/tmp/doc.pdf"
      (by decide)
  · exact C10_key_shape_routing.2.2 jEnvW "AB" "AB-9" "/tmp/doc.pdf"
      (by decide) (by decide) (by decide)

/-- Weakening a `List.all` fact pointwise. -/
theorem all_mono {α : Type} (l : List α) (p q : α → Bool)
    (h : ∀ a, p a = true → q a = true) (hl : l.all p = true) :
    l.all q = true := by
  rw [List.all_eq_true] at hl ⊢
  exact fun a ha => h a (hl a ha)

/-- A Jira collaborator like `jEnvW` whose summary search for `Fix Login`
finds the existing issue `AB-7` (summaries match after strip+lower). -/
def jEnvX : JiraEnv :=
  { jEnvW with searchIssues := fun p s =>
      if p = "AB" && s = "Fix Login" then [issW] else [] }

/-! ### Create-conflict fall-through (shared by claims C1 and C3) -/

/-- When the title lookup finds an existing page (with a truthy id),
`create_page_and_upload_file` falls through the "already exists" create
failure and returns the upload against the existing page, flagged
`page_created = false`, `page_already_existed = true`; the client's create
endpoint is never called. -/
theorem create_page_and_upload_on_conflict (env : ConfluenceEnv)
    (sp t path c : String) (p : PageInfo)
    (hfind : env.getContentByTitle sp t = .ok (some p)) (hid : p.id ≠ "") :
    create_page_and_upload_file env sp t path c =
      ({ (liftU (upload_file_to_content env p.id path).1) with
          page_created := some false
          page_already_existed := some true },
       Call.getContentByTitle sp t :: (upload_file_to_content env p.id path).2) := by
  have hae : strContains ("Page with title \"" ++ t ++
      ("\" already exists in space \"" ++ (sp ++ "\""))) "already exists" = true :=
    strContains_middle ("Page with title \"" ++ t) "\" already exists in space \""
      (sp ++ "\"") "already exists" (by decide)
  unfold create_page_and_upload_file create_page
  simp only [hfind]
  simp only [Bool.false_eq_true, if_false, Option.getD_some, hae, if_true, if_pos hid]
  rfl

/-- When the summary search finds an existing issue (with a truthy key),
`create_issue_and_upload_file` falls through the "already exists" create
failure and returns the upload against the existing issue, flagged
`issue_created = false`, `issue_already_existed = true`; the client's
create endpoint is never called. -/
theorem create_issue_and_upload_on_conflict (env : JiraEnv)
    (proj s path : String) (i : IssueInfo)
    (hp : env.getProject proj = true)
    (hfind : (env.searchIssues proj s).find?
      (fun x => normSummary x.summary = normSummary s) = some i)
    (hkey : i.key ≠ "") :
    create_issue_and_upload_file env proj s path =
      ({ (liftU (upload_file_to_issue env i.key path).1) with
          issue_created := some false
          issue_already_existed := some true },
       Call.getProject proj :: Call.searchIssues proj s ::
         (upload_file_to_issue env i.key path).2) := by
  have hae : strContains (("Issue with summary \"" ++ s) ++ "\" already exists")
      "already exists" = true :=
    strContains_right ("Issue with summary \"" ++ s) "\" already exists"
      "already exists" (by decide)
  unfold create_issue_and_upload_file create_issue
  simp only [hp, if_true, hfind]
  simp only [Bool.false_eq_true, if_false, Option.getD_some, hae, if_pos hkey]
  rfl

/-- Claim C3: when the create step fails because the target already exists,
both composites continue and return the upload against the existing target,
reporting `page_created` / `issue_created = false` together with
`page_already_existed` / `issue_already_existed = true`, and never call the
client's create endpoint (the conflict alone never fails the operation:
its outcome is exactly the upload's outcome). -/
theorem C3_conflict_falls_through_to_upload :
    (∀ (env : ConfluenceEnv) (sp t path c : String) (p : PageInfo),
      env.getContentByTitle sp t = .ok (some p) → p.id ≠ "" →
      (create_page_and_upload_file env sp t path c).1 =
        { (liftU (upload_file_to_content env p.id path).1) with
            page_created := some false
            page_already_existed := some true } ∧
      ((create_page_and_upload_file env sp t path c).2).all
        (fun cl => !cl.isCreate) = true) ∧
    (∀ (env : JiraEnv) (proj s path : String) (i : IssueInfo),
      env.getProject proj = true →
      (env.searchIssues proj s).find?
        (fun x => normSummary x.summary = normSummary s) = some i →
      i.key ≠ "" →
      (create_issue_and_upload_file env proj s path).1 =
        { (liftU (upload_file_to_issue env i.key path).1) with
            issue_created := some false
            issue_already_existed := some true } ∧
      ((create_issue_and_upload_file env proj s path).2).all
        (fun cl => !cl.isCreate) = true) := by
  constructor
  · intro env sp t path c p hfind hid
    rw [create_page_and_upload_on_conflict env sp t path c p hfind hid]
    refine ⟨rfl, ?_⟩
    simp only [List.all_cons, Call.isCreate, Bool.not_false, Bool.true_and]
    exact all_mono _ _ _
      (fun a ha => by
        rcases Bool.and_eq_true _ _ |>.mp ha with ⟨h1, -⟩
        exact (Bool.and_eq_true _ _ |>.mp h1).2)
      (upload_file_to_content_trace env p.id path)
  · intro env proj s path i hp hfind hkey
    rw [create_issue_and_upload_on_conflict env proj s path i hp hfind hkey]
    refine ⟨rfl, ?_⟩
    simp only [List.all_cons, Call.isCreate, Bool.not_false, Bool.true_and]
    exact all_mono _ _ _
      (fun a ha => by
        rcases Bool.and_eq_true _ _ |>.mp ha with ⟨h1, -⟩
        exact (Bool.and_eq_true _ _ |>.mp h1).2)
      (upload_file_to_issue_trace env i.key path)

/-- Claim C3, witness: against `cEnvW` (page `Home` exists) and a Jira
environment whose summary search finds an existing issue, both composites
return the flagged upload result without calling a create endpoint. -/
theorem C3_conflict_falls_through_to_upload_witness :
    (create_page_and_upload_file cEnvW "SP" "Home" "/tmp/doc.pdf" "").1.page_created
        = some false ∧
    (create_page_and_upload_file cEnvW "SP" "Home" "/tmp/doc.pdf" "").1.page_already_existed
        = some true ∧
    ((create_page_and_upload_file cEnvW "SP" "Home" "/tmp/doc.pdf" "").2).all
        (fun cl => !cl.isCreate) = true ∧
    (create_issue_and_upload_file jEnvX "AB" "Fix Login" "/tmp/doc.pdf").1.issue_created
        = some false ∧
    (create_issue_and_upload_file jEnvX "AB" "Fix Login" "/tmp/doc.pdf").1.issue_already_existed
        = some true ∧
    ((create_issue_and_upload_file jEnvX "AB" "Fix Login" "/tmp/doc.pdf").2).all
        (fun cl => !cl.isCreate) = true := by
  have h1 := C3_conflict_falls_through_to_upload.1 cEnvW "SP" "Home" "/tmp/doc.pdf" ""
    pgW (by rfl) (by decide)
  have h2 := C3_conflict_falls_through_to_upload.2 jEnvX "AB" "Fix Login" "/tmp/doc.pdf"
    issW (by decide) (by decide) (by decide)
  exact ⟨by rw [h1.1], by rw [h1.1], h1.2, by rw [h2.1], by rw [h2.1], h2.2⟩

/-- Claim C7: when the create step succeeded and the upload step failed,
both composites return a failure result that still reports the created
target (`page_created` / `issue_created = true` with its id / key), and the
client-call trace contains no delete (rollback) call. -/
theorem C7_no_rollback_on_upload_failure :
    (∀ (env : ConfluenceEnv) (sp t path c : String) (pg : PageInfo),
      env.getContentByTitle sp t = .ok none → env.getSpace sp = true →
      env.createPage sp t = .ok pg →
      (upload_file_to_content env pg.id path).1.success = false →
      (create_page_and_upload_file env sp t path c).1.success = false ∧
      (create_page_and_upload_file env sp t path c).1.page_created = some true ∧
      (create_page_and_upload_file env sp t path c).1.page_id = some pg.id ∧
      ((create_page_and_upload_file env sp t path c).2).all
        (fun cl => !cl.isDelete) = true) ∧
    (∀ (env : JiraEnv) (proj s path : String) (iss : IssueInfo),
      env.getProject proj = true →
      (env.searchIssues proj s).find?
        (fun x => normSummary x.summary = normSummary s) = none →
      env.createIssue proj s = .ok iss →
      (upload_file_to_issue env iss.key path).1.success = false →
      (create_issue_and_upload_file env proj s path).1.success = false ∧
      (create_issue_and_upload_file env proj s path).1.issue_created = some true ∧
      (create_issue_and_upload_file env proj s path).1.issue_key = some iss.key ∧
      ((create_issue_and_upload_file env proj s path).2).all
        (fun cl => !cl.isDelete) = true) := by
  constructor
  · intro env sp t path c pg hlk hspc hcp hu
    have he : create_page_and_upload_file env sp t path c =
        ({ success := false, page_created := some true, page_id := some pg.id,
           page_title := some t,
           error := some ("Page created but upload failed: " ++
             ((upload_file_to_content env pg.id path).1.error.getD "Unknown error")),
           upload_result := some (upload_file_to_content env pg.id path).1 },
         [Call.getContentByTitle sp t, Call.getSpace sp, Call.createPage sp t] ++
           (upload_file_to_content env pg.id path).2) := by
      unfold create_page_and_upload_file create_page
      simp only [hlk, hspc, if_true, hcp, hu]
      rfl
    rw [he]
    refine ⟨rfl, rfl, rfl, ?_⟩
    simp only [List.all_append, List.all_cons, List.all_nil, Call.isDelete,
      Bool.not_false, Bool.true_and, Bool.and_true]
    exact all_mono _ _ _
      (fun a ha => by
        rcases Bool.and_eq_true _ _ |>.mp ha with ⟨-, h2⟩
        exact h2)
      (upload_file_to_content_trace env pg.id path)
  · intro env proj s path iss hp hs hci hu
    have he : create_issue_and_upload_file env proj s path =
        ({ success := false, issue_created := some true, issue_key := some iss.key,
           summary := some s,
           error := some ("Issue created but upload failed: " ++
             ((upload_file_to_issue env iss.key path).1.error.getD "Unknown error")),
           upload_result := some (upload_file_to_issue env iss.key path).1 },
         [Call.getProject proj, Call.searchIssues proj s, Call.createIssue proj s] ++
           (upload_file_to_issue env iss.key path).2) := by
      unfold create_issue_and_upload_file create_issue
      simp only [hp, if_true, hs, hci, hu]
      rfl
    rw [he]
    refine ⟨rfl, rfl, rfl, ?_⟩
    simp only [List.all_append, List.all_cons, List.all_nil, Call.isDelete,
      Bool.not_false, Bool.true_and, Bool.and_true]
    exact all_mono _ _ _
      (fun a ha => by
        rcases Bool.and_eq_true _ _ |>.mp ha with ⟨-, h2⟩
        exact h2)
      (upload_file_to_issue_trace env iss.key path)

/-- Claim C7, witness: the page `New` / issue `New task` are created, the
upload then fails (the new content id is not readable back in `cEnvW`; the
new issue key is unknown to `jEnvW.getIssue`), and the failure result still
carries the created target with no delete call in the trace. -/
theorem C7_no_rollback_on_upload_failure_witness :
    (create_page_and_upload_file cEnvW "SP" "New" "/tmp/doc.pdf" "").1.success
        = false ∧
    (create_page_and_upload_file cEnvW "SP" "New" "/tmp/doc.pdf" "").1.page_created
        = some true ∧
    (create_issue_and_upload_file jEnvW "AB" "New task" "/tmp/doc.pdf").1.issue_created
        = some true ∧
    ((create_issue_and_upload_file jEnvW "AB" "New task" "/tmp/doc.pdf").2).all
        (fun cl => !cl.isDelete) = true := by
  have h1 := C7_no_rollback_on_upload_failure.1 cEnvW "SP" "New" "/tmp/doc.pdf" ""
    { id := "202", title := "New", webui := "/y" } (by rfl) (by rfl) (by rfl) (by decide)
  have h2 := C7_no_rollback_on_upload_failure.2 jEnvW "AB" "New task" "/tmp/doc.pdf"
    { key := "AB-9", id := "9", summary := "s" } (by rfl) (by decide) (by rfl) (by decide)
  exact ⟨h1.1, h1.2.1, h2.2.1, h2.2.2.2⟩

/-- Claim C1, counterexample: the Jira issue `AB-7` exists (the key-shaped
lookup finds it), the transfer then fails with a falsy server response, and
`upload_file_to_issue_or_create` returns that failure without any
`issue_created` key — against the claim's "the result carries
`issue_created = false`". -/
theorem C1_claim_counterexample :
    pyKeyShape "AB-7" = true ∧
    jEnvW.getIssue "AB-7" = some issW ∧
    (upload_file_to_issue_or_create jEnvW "AB" "AB-7" "/tmp/doc.pdf").1.success
      = false ∧
    (upload_file_to_issue_or_create jEnvW "AB" "AB-7" "/tmp/doc.pdf").1.issue_created
      = none := by
  refine ⟨by decide, by rfl, by decide, by decide⟩

/-- Claim C1 as amended: when the initial target lookup finds an existing
target, no create call is ever issued and every transfer goes to the found
target.  The Confluence result always carries `page_created = false`; the
Jira result carries `issue_created = false` exactly when the upload
succeeds and omits the key on failure (provided the upload failure does not
itself report a "not found" error, which would divert the Jira flow to the
create path). -/
theorem C1_found_target_never_creates :
    (∀ (env : ConfluenceEnv) (sp t path c : String) (p : PageInfo),
      env.getContentByTitle sp t = .ok (some p) → p.id ≠ "" →
      (upload_file_to_page_or_create env sp t path c).1.page_created = some false ∧
      ((upload_file_to_page_or_create env sp t path c).2).all
        (fun cl => cl.uploadsOnlyTo p.id && !cl.isCreate && !cl.isDelete) = true) ∧
    (∀ (env : JiraEnv) (proj k path : String) (iss : IssueInfo),
      pyKeyShape k = true → env.getIssue k = some iss →
      strContainsLow ((upload_file_to_issue env k path).1.error.getD "")
        "not found" = false →
      (upload_file_to_issue_or_create env proj k path).1.issue_created =
        (if (upload_file_to_issue env k path).1.success = true
         then some false else none) ∧
      ((upload_file_to_issue_or_create env proj k path).2).all
        (fun cl => cl.uploadsOnlyTo k && !cl.isCreate && !cl.isDelete) = true) := by
  constructor
  · intro env sp t path c p hfind hid
    unfold upload_file_to_page_or_create upload_file_to_page_by_title
    simp only [hfind]
    by_cases hcond :
        (!(upload_file_to_content env p.id path).1.success &&
          strContainsLow ((upload_file_to_content env p.id path).1.error.getD "")
            "not found") = true
    · rw [if_pos hcond, create_page_and_upload_on_conflict env sp t path c p hfind hid]
      refine ⟨rfl, ?_⟩
      simp only [List.all_append, List.all_cons, Call.uploadsOnlyTo, Call.isCreate,
        Call.isDelete, Bool.not_false, Bool.and_true, Bool.true_and,
        Bool.and_eq_true]
      exact ⟨upload_file_to_content_trace env p.id path,
        upload_file_to_content_trace env p.id path⟩
    · rw [if_neg hcond]
      refine ⟨rfl, ?_⟩
      simp only [List.all_cons, Call.uploadsOnlyTo, Call.isCreate,
        Call.isDelete, Bool.not_false, Bool.and_true, Bool.true_and]
      exact upload_file_to_content_trace env p.id path
  · intro env proj k path iss hk hfound hnnf
    unfold upload_file_to_issue_or_create
    rw [if_pos hk]
    by_cases hs : (upload_file_to_issue env k path).1.success = true
    · rw [if_pos hs, if_pos hs]
      exact ⟨rfl, upload_file_to_issue_trace env k path⟩
    · rw [if_neg hs, if_neg hs, hnnf]
      rw [if_pos (show (!false) = true from rfl)]
      exact ⟨rfl, upload_file_to_issue_trace env k path⟩

/-- Claim C1, witness: page `Home` and issue `AB-7` are found; no create
call is issued, the result carries `page_created = false` on the Confluence
side, and the failed Jira upload (falsy server response) yields no
`issue_created` key. -/
theorem C1_found_target_never_creates_witness :
    (upload_file_to_page_or_create cEnvW "SP" "Home" "/tmp/doc.pdf" "").1.page_created
        = some false ∧
    ((upload_file_to_page_or_create cEnvW "SP" "Home" "/tmp/doc.pdf" "").2).all
        (fun cl => cl.uploadsOnlyTo "101" && !cl.isCreate && !cl.isDelete) = true ∧
    (upload_file_to_issue_or_create jEnvW "AB" "AB-7" "/tmp/doc.pdf").1.issue_created =
      (if (upload_file_to_issue jEnvW "AB-7" "/tmp/doc.pdf").1.success = true
       then some false else none) := by
  have h1 := C1_found_target_never_creates.1 cEnvW "SP" "Home" "/tmp/doc.pdf" ""
    pgW (by rfl) (by decide)
  have h2 := C1_found_target_never_creates.2 jEnvW "AB" "AB-7" "/tmp/doc.pdf"
    issW (by decide) (by rfl) (by decide)
  exact ⟨h1.1, h1.2, h2.1⟩

end DSMCP
